import Mathlib

/-!
# Verification of the simpleStore storage-binding utilities

Shallow embedding of `src/useSimpleStore.ts`: the browser-storage binding
(`useSimpleStore`), the extension-storage binding (`useChromeStore`) and the
standalone asynchronous fetch helper (`getFromChromeStore`), together with
proofs of the specification's claims about them.

Host primitives (the JSON codec, the two key-value storage areas of each
host) are not part of the repository; they are modelled explicitly.  The
repository's own functions are translated statement by statement from the
TypeScript source; React state updates become explicit state passing, and
asynchronous callbacks become plain functions applied to the state they
observe.
-/

set_option autoImplicit false

namespace SimpleStoreSpec

/-- JSON values, the data callers round-trip through storage (spec section 6:
strings, numbers, booleans, plain objects/arrays, plus null).  JSON numbers
are floating point in the host; the claims only exercise integers, so numbers
are modelled as `Int`. -/
inductive JsonValue where
  | null
  | bool (b : Bool)
  | num (n : Int)
  | str (s : String)
  | arr (elems : List JsonValue)
  | obj (fields : List (String × JsonValue))

/-- Outcome class of a failed `JSON.parse`: the host throws `SyntaxError` on
malformed text; the extension change handler distinguishes that class from
any other thrown error (lines 136-143 of the source), so the class is kept
abstract here. -/
inductive ParseErr where
  | synErr
  | otherErr
  deriving DecidableEq, Repr

/-- A JSON text codec as the bindings see it: a total serializer and a parser
that either returns a value or fails with an error class.  The repository
calls the host's `JSON.stringify`/`JSON.parse` through this interface. -/
abbrev ParseFun := String → Except ParseErr JsonValue

/-- Escape of one character inside a JSON string literal (quote and backslash
only; enough for the serializer model). -/
def escChar (c : Char) : List Char :=
  if c = '\"' then ['\\', '\"']
  else if c = '\\' then ['\\', '\\']
  else [c]

mutual

/-- Modelled from the spec: the host `JSON.stringify` primitive (section 6,
"JSON text encoding/decoding of the stored value"), on the `JsonValue`
universe.  Not repository code. -/
def jsonStringify : JsonValue → String
  | JsonValue.null => "null"
  | JsonValue.bool true => "true"
  | JsonValue.bool false => "false"
  | JsonValue.num n => toString n
  | JsonValue.str s => "\"" ++ String.mk (List.flatten (s.toList.map escChar)) ++ "\""
  | JsonValue.arr elems => "[" ++ jsonStringifyList elems ++ "]"
  | JsonValue.obj fields => "\x7b" ++ jsonStringifyFields fields ++ "\x7d"

/-- Comma-separated serialization of array elements. -/
def jsonStringifyList : List JsonValue → String
  | [] => ""
  | [v] => jsonStringify v
  | v :: rest => jsonStringify v ++ "," ++ jsonStringifyList rest

/-- Comma-separated serialization of object fields. -/
def jsonStringifyFields : List (String × JsonValue) → String
  | [] => ""
  | [(k, v)] => "\"" ++ k ++ "\":" ++ jsonStringify v
  | (k, v) :: rest => "\"" ++ k ++ "\":" ++ jsonStringify v ++ "," ++ jsonStringifyFields rest

end

/-- Body of a quoted string literal without escapes: consumes characters up to
a closing quote, failing on an interior quote or backslash. -/
def strLitBody : List Char → Option (List Char)
  | ['\"'] => some []
  | c :: rest =>
      if c = '\"' ∨ c = '\\' then none
      else (strLitBody rest).map (fun cs => c :: cs)
  | [] => none

/-- Parse of a quoted JSON string literal (no escapes). -/
def jsonParseStrLit (s : String) : Option String :=
  match s.toList with
  | '\"' :: rest => (strLitBody rest).map String.mk
  | _ => none

/-- Decimal value of a digit run, with accumulator; fails on a non-digit. -/
def digitsVal : List Char → Nat → Option Nat
  | [], acc => some acc
  | c :: rest, acc =>
      if 48 ≤ c.toNat ∧ c.toNat ≤ 57 then digitsVal rest (acc * 10 + (c.toNat - 48))
      else none

/-- Parse of an integer numeral: optional minus sign, then digits. -/
def parseIntLit (s : String) : Option Int :=
  match s.toList with
  | [] => none
  | '-' :: rest =>
      match rest with
      | [] => none
      | _ => (digitsVal rest 0).map (fun n => -(n : Int))
  | l => (digitsVal l 0).map (fun n => (n : Int))

/-- Modelled from the spec: the host `JSON.parse` primitive (section 6), on
atomic JSON texts: `null`, the booleans, integer numerals and quoted strings
without escape sequences.  Every other text fails with a syntax error, the
only error class the host's parser throws.  Not repository code; the
universally quantified theorems below take an arbitrary `ParseFun` instead,
and this concrete instance feeds the scenario claims and witnesses, which
only use atomic texts on which it agrees with the host. -/
def jsonParse (s : String) : Except ParseErr JsonValue :=
  if s = "null" then Except.ok JsonValue.null
  else if s = "true" then Except.ok (JsonValue.bool true)
  else if s = "false" then Except.ok (JsonValue.bool false)
  else
    match parseIntLit s with
    | some n => Except.ok (JsonValue.num n)
    | none =>
        match jsonParseStrLit s with
        | some body => Except.ok (JsonValue.str body)
        | none => Except.error ParseErr.synErr

/-- One key-value storage area: association of keys to raw stored strings.
`getItem`/`get` return the newest entry for a key, or nothing. -/
abbrev Store := List (String × String)

/-- The read primitive of a storage area: `getItem(key)` (browser) or the
per-key result of `get([key])` (extension). -/
def lookupStore : Store → String → Option String
  | [], _ => none
  | (k, v) :: rest, key => if k = key then some v else lookupStore rest key

/-- The write primitive of a storage area: `setItem(key, raw)` (browser) or
`set({[key]: raw})` (extension); overwrites the entry for the key. -/
def storeSet (st : Store) (key raw : String) : Store :=
  (key, raw) :: st.filter (fun p => p.fst ≠ key)

/-- The browser's two storage areas: `localStorage` (durable) and
`sessionStorage` (session-scoped). -/
structure BrowserWorld where
  localStorage : Store
  sessionStorage : Store

/-- Line 8 of the source: `const storage = persist ? localStorage :
sessionStorage`. -/
def browserSelect (w : BrowserWorld) (persist : Bool) : Store :=
  if persist then w.localStorage else w.sessionStorage

/-- `storage.setItem(key, raw)` on the area `useSimpleStore` selected. -/
def browserSetItem (w : BrowserWorld) (persist : Bool) (key raw : String) : BrowserWorld :=
  if persist then { w with localStorage := storeSet w.localStorage key raw }
  else { w with sessionStorage := storeSet w.sessionStorage key raw }

/-- The extension's two storage areas: `chrome.storage.local` (durable) and
`chrome.storage.session` (session-scoped). -/
structure ChromeWorld where
  localArea : Store
  sessionArea : Store

/-- Lines 64 and 103 of the source: `const storage = persist ?
chrome.storage.local : chrome.storage.session`. -/
def chromeSelect (w : ChromeWorld) (persist : Bool) : Store :=
  if persist then w.localArea else w.sessionArea

/-- `storage.set({[key]: raw})` on the area the extension binding selected. -/
def chromeSet (w : ChromeWorld) (persist : Bool) (key raw : String) : ChromeWorld :=
  if persist then { w with localArea := storeSet w.localArea key raw }
  else { w with sessionArea := storeSet w.sessionArea key raw }

/-- A React `SetStateAction<T>`: either a literal new value or an updater
function of the previous value.  The source's `valueAction instanceof
Function` test becomes the case split on this sum. -/
inductive SetStateAction where
  | literal (v : JsonValue)
  | updater (f : JsonValue → JsonValue)

/-- `valueAction instanceof Function ? valueAction(value) : valueAction`
(lines 31-32 and 159-160 of the source). -/
def resolveAction (valueAction : SetStateAction) (value : JsonValue) : JsonValue :=
  match valueAction with
  | SetStateAction.literal v => v
  | SetStateAction.updater f => f value

/-! ## Browser-storage binding (`useSimpleStore`, lines 3-38) -/

/-- Lines 10-13 of the source, the `useState` initializer of `useSimpleStore`:

    const storedValue = storage.getItem(key);
    return storedValue ? JSON.parse(storedValue) : defaultValue;

`storedValue` is a JS string-or-null tested for *truthiness*: `null` and the
empty string are both falsy, every other string is parsed.  `JSON.parse` may
throw, so the result is an `Except`; an `Except.error` outcome is an uncaught
exception escaping to the caller. -/
def useSimpleStoreInit (parse : ParseFun) (key : String) (defaultValue : JsonValue)
    (storage : Store) : Except ParseErr JsonValue :=
  match lookupStore storage key with
  | some storedValue =>
      if storedValue = "" then Except.ok defaultValue else parse storedValue
  | none => Except.ok defaultValue

/-- Lines 16-21 of the source, `handleStorageChange` of `useSimpleStore`:

    const storedValue = storage.getItem(key);
    if (storedValue !== null) { setValue(JSON.parse(storedValue)); }

The listener is registered for every `storage` event of the window and reads
nothing from the event, so `eventKey` (the key the triggering event reports)
is a parameter the body never consults.  Here the presence test is `!== null`,
not truthiness, so an empty stored string is parsed (and fails).  The result
is the in-memory value after the handler runs; `Except.error` is an uncaught
parse exception. -/
def handleStorageChange (parse : ParseFun) (key : String) (eventKey : String)
    (storage : Store) (value : JsonValue) : Except ParseErr JsonValue :=
  match lookupStore storage key with
  | some storedValue => parse storedValue
  | none => Except.ok value

/-- Lines 28-35 of the source, `setStoredValue` of `useSimpleStore`: resolve
the action against the current in-memory value, set the new in-memory value,
and write its serialization through to the selected browser storage area.
Returns the new in-memory value and the updated browser storage. -/
def setStoredValue (key : String) (persist : Bool) (valueAction : SetStateAction)
    (value : JsonValue) (w : BrowserWorld) : JsonValue × BrowserWorld :=
  let valueToStore := resolveAction valueAction value
  (valueToStore, browserSetItem w persist key (jsonStringify valueToStore))

/-! ## Async value fetch (`getFromChromeStore`, lines 59-84) -/

/-- Lines 64-83 of the source: select the area from `persist`, `get` the key;
if present, try to parse, resolving the parsed value on success and
`defaultValue` on failure (the `catch` only logs); if absent, resolve
`defaultValue`.  Every branch of the callback calls `resolve`, and the model
returns that resolved value directly. -/
def getFromChromeStore (parse : ParseFun) (key : String) (defaultValue : JsonValue)
    (persist : Bool) (w : ChromeWorld) : JsonValue :=
  let storage := chromeSelect w persist
  match lookupStore storage key with
  | some raw =>
      match parse raw with
      | Except.ok value => value
      | Except.error _ => defaultValue
  | none => defaultValue

/-! ## Extension-storage binding (`useChromeStore`, lines 95-166) -/

/-- The React state pair of `useChromeStore`: the bound value and the
`hasLoaded` flag.  Initially `⟨defaultValue, false⟩` (lines 100-101). -/
structure ChromeBindingState where
  value : JsonValue
  hasLoaded : Bool

/-- Lines 105-118 of the source, the initial-read effect of `useChromeStore`:
`storage.get([key], ...)`; if `result[key] !== undefined`, try to parse it,
adopting the parsed value on success and the raw stored string on any parse
failure (the `catch` logs and falls back); if absent, leave the value alone.
In every case `setHasLoaded(true)` runs after the branch. -/
def chromeInitialRead (parse : ParseFun) (key : String) (storage : Store)
    (st : ChromeBindingState) : ChromeBindingState :=
  match lookupStore storage key with
  | some raw =>
      match parse raw with
      | Except.ok v => { value := v, hasLoaded := true }
      | Except.error _ => { value := JsonValue.str raw, hasLoaded := true }
  | none => { st with hasLoaded := true }

/-- One entry of a `chrome.storage.onChanged` change set: the raw new value
carried for a changed key.  (A removal would carry no new value; the claims
and the model cover changes that carry one.) -/
structure StorageChange where
  newValue : String

/-- Lines 122-147 of the source, `handleStorageChange` of `useChromeStore`.
The extension's change event fires for every key of every area, carrying the
change set `changes` and the `areaName` it happened in.  The handler reacts
only when the area matches the binding's persistence mode — `(persist &&
areaName === "local") || (!persist && areaName === "session")` — and
`changes[key]` is present.  On a match it parses the carried new value:
parse success adopts the parsed value; a parse failure that is a
`SyntaxError` adopts the raw new value as-is; any other failure only logs,
leaving the value unchanged.  Returns the in-memory value after the handler
runs. -/
def handleChromeStorageChange (parse : ParseFun) (persist : Bool) (key : String)
    (changes : List (String × StorageChange)) (areaName : String)
    (value : JsonValue) : JsonValue :=
  if (persist ∧ areaName = "local") ∨ (¬persist ∧ areaName = "session") then
    match List.lookup key changes with
    | some change =>
        match parse change.newValue with
        | Except.ok newValue => newValue
        | Except.error ParseErr.synErr => JsonValue.str change.newValue
        | Except.error ParseErr.otherErr => value
    | none => value
  else value

/-- Lines 156-163 of the source, `setStoredValue` of `useChromeStore`:
resolve the action against the current in-memory value, set the new in-memory
value, and write its serialization to the selected extension storage area
(fire-and-forget).  Returns the new in-memory value and the updated extension
storage. -/
def chromeSetStoredValue (key : String) (persist : Bool) (valueAction : SetStateAction)
    (value : JsonValue) (w : ChromeWorld) : JsonValue × ChromeWorld :=
  let valueToStore := resolveAction valueAction value
  (valueToStore, chromeSet w persist key (jsonStringify valueToStore))

/-! ## Default persistence modes (signatures, lines 3-8, 59-64, 95-103) -/

/-- Line 6 of the source: `persist: boolean = true` in `useSimpleStore`. -/
def useSimpleStoreDefaultPersist : Bool := true

/-- Line 62 of the source: `persist: boolean = false` in `getFromChromeStore`. -/
def getFromChromeStoreDefaultPersist : Bool := false

/-- Line 98 of the source: `persist: boolean = false` in `useChromeStore`. -/
def useChromeStoreDefaultPersist : Bool := false

/-! ## Concrete scenario material -/

/-- Modelled from the spec: the caller-supplied updater `(prev) => prev + 1`
of the count scenario (spec section 8, property 7), JS numeric increment on
the number it is applied to. -/
def incrUpdater : JsonValue → JsonValue
  | JsonValue.num n => JsonValue.num (n + 1)
  | v => v

/-- Count scenario: both browser storage areas start empty ("no prior
entry"). -/
def c1World0 : BrowserWorld := ⟨[], []⟩

/-- Count scenario: one sequential setter call with the increment updater on
key `"count"`, `persist = true`, threading in-memory value and storage. -/
def c1Step (s : JsonValue × BrowserWorld) : JsonValue × BrowserWorld :=
  setStoredValue "count" true (SetStateAction.updater incrUpdater) s.1 s.2

/-- Count scenario: state after three sequential setter calls, starting from
the initial in-memory value `0`. -/
def c1Final : JsonValue × BrowserWorld :=
  c1Step (c1Step (c1Step (JsonValue.num 0, c1World0)))

/-- A parser stub whose failures are not syntax errors, used to exercise the
extension change handler's non-`SyntaxError` catch branch. -/
def alwaysOtherErr : ParseFun := fun _ => Except.error ParseErr.otherErr

/-! ## Helper lemmas -/

/-- Writing a key and then reading the same key returns the written raw
string. -/
theorem lookupStore_storeSet (st : Store) (key raw : String) :
    lookupStore (storeSet st key raw) key = some raw := by
  simp [storeSet, lookupStore]

/-- `setItem` through the selected browser area updates exactly that area. -/
theorem browserSelect_browserSetItem (w : BrowserWorld) (persist : Bool) (key raw : String) :
    browserSelect (browserSetItem w persist key raw) persist
      = storeSet (browserSelect w persist) key raw := by
  cases persist <;> simp [browserSelect, browserSetItem]

/-- `set` through the selected extension area updates exactly that area. -/
theorem chromeSelect_chromeSet (w : ChromeWorld) (persist : Bool) (key raw : String) :
    chromeSelect (chromeSet w persist key raw) persist
      = storeSet (chromeSelect w persist) key raw := by
  cases persist <;> simp [chromeSelect, chromeSet]

/-! ## Claims -/

/-- C1: with key `"count"`, defaultValue `0`, `persist = true` and no prior
entry, the browser binding initializes to `0`, and after the setter runs
three times sequentially with the updater `(prev) => prev + 1`, the raw value
stored under `"count"` in `localStorage` is the text `"3"` and the in-memory
value is `3`. -/
theorem c1_count_scenario :
    useSimpleStoreInit jsonParse "count" (JsonValue.num 0) (browserSelect c1World0 true)
      = Except.ok (JsonValue.num 0)
    ∧ c1Final.1 = JsonValue.num 3
    ∧ lookupStore (browserSelect c1Final.2 true) "count" = some "3" :=
  ⟨rfl, rfl, rfl⟩

/-- C2: for both bindings and both persistence modes, for every key `K` and
value `V`, calling the setter with the literal `V` and then independently
reading `K` from the corresponding storage area yields exactly the JSON
serialization of `V`. -/
theorem c2_setter_write_through (key : String) (V : JsonValue) (persist : Bool)
    (prevB prevC : JsonValue) (bw : BrowserWorld) (cw : ChromeWorld) :
    lookupStore
        (browserSelect (setStoredValue key persist (SetStateAction.literal V) prevB bw).2 persist)
        key
      = some (jsonStringify V)
    ∧ lookupStore
        (chromeSelect (chromeSetStoredValue key persist (SetStateAction.literal V) prevC cw).2 persist)
        key
      = some (jsonStringify V) := by
  constructor
  · rw [setStoredValue]
    rw [browserSelect_browserSetItem]
    exact lookupStore_storeSet _ _ _
  · rw [chromeSetStoredValue]
    rw [chromeSelect_chromeSet]
    exact lookupStore_storeSet _ _ _

/-- C3, counterexample: an entry can exist under the key while the initial
value is the default rather than the parse of the entry.  With the empty
string stored under `"k"` (an existing entry whose parse fails), the
initializer's truthiness test skips the parse and returns the default `7`,
which differs from `jsonParse ""`. -/
theorem c3_counterexample_empty_entry :
    lookupStore [("k", "")] "k" = some ""
    ∧ useSimpleStoreInit jsonParse "k" (JsonValue.num 7) [("k", "")]
        = Except.ok (JsonValue.num 7)
    ∧ useSimpleStoreInit jsonParse "k" (JsonValue.num 7) [("k", "")] ≠ jsonParse "" := by
  refine ⟨rfl, rfl, ?_⟩
  intro h
  rw [show useSimpleStoreInit jsonParse "k" (JsonValue.num 7) [("k", "")]
        = Except.ok (JsonValue.num 7) from rfl,
      show jsonParse "" = Except.error ParseErr.synErr from rfl] at h
  exact Except.noConfusion h

/-- C3, amended: browser-binding initialization parses the stored entry when
a *non-empty* entry exists under the key, and yields the default value when
no entry exists — or when the existing entry is the empty string, which the
initializer's truthiness test treats like an absent one. -/
theorem c3_init_amended (parse : ParseFun) (key : String) (defaultValue : JsonValue)
    (storage : Store) :
    (lookupStore storage key = none →
        useSimpleStoreInit parse key defaultValue storage = Except.ok defaultValue)
    ∧ (lookupStore storage key = some "" →
        useSimpleStoreInit parse key defaultValue storage = Except.ok defaultValue)
    ∧ (∀ s, lookupStore storage key = some s → s ≠ "" →
        useSimpleStoreInit parse key defaultValue storage = parse s) := by
  refine ⟨fun h => ?_, fun h => ?_, fun s hs hne => ?_⟩
  · simp [useSimpleStoreInit, h]
  · simp [useSimpleStoreInit, h]
  · simp [useSimpleStoreInit, hs, hne]

/-- Witness for C3's amended theorem: absent key yields the default, an
empty-string entry yields the default, and a non-empty entry is parsed. -/
theorem c3_init_amended_witness :
    useSimpleStoreInit jsonParse "count" (JsonValue.num 0) [] = Except.ok (JsonValue.num 0)
    ∧ useSimpleStoreInit jsonParse "k" (JsonValue.num 7) [("k", "")]
        = Except.ok (JsonValue.num 7)
    ∧ useSimpleStoreInit jsonParse "k" (JsonValue.num 7) [("k", "2")] = jsonParse "2" :=
  ⟨(c3_init_amended jsonParse "count" (JsonValue.num 0) []).1 rfl,
   (c3_init_amended jsonParse "k" (JsonValue.num 7) [("k", "")]).2.1 rfl,
   (c3_init_amended jsonParse "k" (JsonValue.num 7) [("k", "2")]).2.2 "2" rfl (by decide)⟩

/-- C4, counterexample: the browser binding's change handler ignores the
event payload and adopts whatever is currently stored under its own key, so
the bound value for `"obj"` does *not* stay unchanged for every storage
contents when an event fires for `"other"`: with in-memory value `1` and
stored entry `"2"` under `"obj"`, the handler changes the value to `2`. -/
theorem c4_counterexample_stale_storage :
    handleStorageChange jsonParse "obj" "other" [("obj", "2")] (JsonValue.num 1)
      = Except.ok (JsonValue.num 2)
    ∧ JsonValue.num 2 ≠ JsonValue.num 1 := by
  refine ⟨rfl, ?_⟩
  intro h
  injection h with h'
  omega

/-- C4, amended: on a storage change event for the different key `"other"`,
the browser binding on `"obj"` keeps its in-memory value unchanged provided
the storage entry under `"obj"` is absent, or is present and parses to that
in-memory value (the handler re-reads its own key; an entry differing from
the in-memory value is adopted instead). -/
theorem c4_frame_amended (parse : ParseFun) (storage : Store) (value : JsonValue)
    (h : lookupStore storage "obj" = none
       ∨ ∃ s, lookupStore storage "obj" = some s ∧ parse s = Except.ok value) :
    handleStorageChange parse "obj" "other" storage value = Except.ok value := by
  rcases h with h | ⟨s, hs, hp⟩
  · simp [handleStorageChange, h]
  · simp [handleStorageChange, hs, hp]

/-- Witness for C4's amended theorem: with nothing stored under `"obj"`, the
handler keeps the in-memory value `1`. -/
theorem c4_frame_amended_witness :
    handleStorageChange jsonParse "obj" "other" [("other", "5")] (JsonValue.num 1)
      = Except.ok (JsonValue.num 1) :=
  c4_frame_amended jsonParse [("other", "5")] (JsonValue.num 1) (Or.inl rfl)

/-- C5: the extension binding's change handler never alters the bound value
on a change event whose reported area does not match the binding's
persistence mode (`persist = true ↔ "local"`, `persist = false ↔ "session"`)
or whose change set does not include the binding's key. -/
theorem c5_chrome_filter (parse : ParseFun) (persist : Bool) (key : String)
    (changes : List (String × StorageChange)) (areaName : String) (value : JsonValue)
    (h : ¬ ((persist ∧ areaName = "local") ∨ (¬persist ∧ areaName = "session"))
       ∨ List.lookup key changes = none) :
    handleChromeStorageChange parse persist key changes areaName value = value := by
  rcases h with h | h
  · unfold handleChromeStorageChange
    rw [if_neg h]
  · unfold handleChromeStorageChange
    split
    · rw [h]
    · rfl

/-- Witness for C5: a durable binding ignores a session-area change for its
own key, and ignores a local-area change set lacking its key. -/
theorem c5_chrome_filter_witness :
    handleChromeStorageChange jsonParse true "k" [("k", ⟨"2"⟩)] "session" (JsonValue.num 5)
      = JsonValue.num 5
    ∧ handleChromeStorageChange jsonParse true "k" [("other", ⟨"2"⟩)] "local" (JsonValue.num 5)
      = JsonValue.num 5 :=
  ⟨c5_chrome_filter jsonParse true "k" [("k", ⟨"2"⟩)] "session" (JsonValue.num 5)
      (Or.inl (by decide)),
   c5_chrome_filter jsonParse true "k" [("other", ⟨"2"⟩)] "local" (JsonValue.num 5)
      (Or.inr rfl)⟩

/-- C6: on a matching change (correct area and key present in the change
set), the extension binding's change handler adopts the parsed carried new
value on parse success, adopts the raw new value as-is when the parse fails
with a syntax error, and leaves the bound value unchanged on any other parse
failure. -/
theorem c6_chrome_matching_change (parse : ParseFun) (persist : Bool) (key : String)
    (changes : List (String × StorageChange)) (areaName : String) (value : JsonValue)
    (change : StorageChange)
    (harea : (persist ∧ areaName = "local") ∨ (¬persist ∧ areaName = "session"))
    (hkey : List.lookup key changes = some change) :
    (∀ v, parse change.newValue = Except.ok v →
        handleChromeStorageChange parse persist key changes areaName value = v)
    ∧ (parse change.newValue = Except.error ParseErr.synErr →
        handleChromeStorageChange parse persist key changes areaName value
          = JsonValue.str change.newValue)
    ∧ (parse change.newValue = Except.error ParseErr.otherErr →
        handleChromeStorageChange parse persist key changes areaName value = value) := by
  refine ⟨fun v hv => ?_, fun hv => ?_, fun hv => ?_⟩
  · unfold handleChromeStorageChange
    rw [if_pos harea, hkey]
    simp only [hv]
  · unfold handleChromeStorageChange
    rw [if_pos harea, hkey]
    simp only [hv]
  · unfold handleChromeStorageChange
    rw [if_pos harea, hkey]
    simp only [hv]

/-- Witness for C6: on a matching local-area change for key `"k"`, the text
`"2"` is adopted parsed as the number `2`; the syntactically invalid text
`"yes"` is adopted raw as the string `"yes"`; under a parser failing with a
non-syntax error the value stays `9`. -/
theorem c6_chrome_matching_change_witness :
    handleChromeStorageChange jsonParse true "k" [("k", ⟨"2"⟩)] "local" (JsonValue.num 9)
      = JsonValue.num 2
    ∧ handleChromeStorageChange jsonParse true "k" [("k", ⟨"yes"⟩)] "local" (JsonValue.num 9)
      = JsonValue.str "yes"
    ∧ handleChromeStorageChange alwaysOtherErr true "k" [("k", ⟨"2"⟩)] "local" (JsonValue.num 9)
      = JsonValue.num 9 :=
  ⟨(c6_chrome_matching_change jsonParse true "k" [("k", ⟨"2"⟩)] "local" (JsonValue.num 9)
      ⟨"2"⟩ (Or.inl ⟨rfl, rfl⟩) rfl).1 (JsonValue.num 2) rfl,
   (c6_chrome_matching_change jsonParse true "k" [("k", ⟨"yes"⟩)] "local" (JsonValue.num 9)
      ⟨"yes"⟩ (Or.inl ⟨rfl, rfl⟩) rfl).2.1 rfl,
   (c6_chrome_matching_change alwaysOtherErr true "k" [("k", ⟨"2"⟩)] "local" (JsonValue.num 9)
      ⟨"2"⟩ (Or.inl ⟨rfl, rfl⟩) rfl).2.2 rfl⟩

/-- C7: the extension binding's initial read adopts the parsed stored value
on a successful parse and the raw unparsed stored string on a failed parse
(no error escapes), leaves the value at the prior default when the key is
absent, and sets the loaded flag true in every case. -/
theorem c7_chrome_initial_read (parse : ParseFun) (key : String) (storage : Store)
    (st : ChromeBindingState) :
    (chromeInitialRead parse key storage st).hasLoaded = true
    ∧ (∀ raw v, lookupStore storage key = some raw → parse raw = Except.ok v →
        (chromeInitialRead parse key storage st).value = v)
    ∧ (∀ raw e, lookupStore storage key = some raw → parse raw = Except.error e →
        (chromeInitialRead parse key storage st).value = JsonValue.str raw)
    ∧ (lookupStore storage key = none →
        (chromeInitialRead parse key storage st).value = st.value) := by
  refine ⟨?_, fun raw v hraw hv => ?_, fun raw e hraw he => ?_, fun h => ?_⟩
  · cases hl : lookupStore storage key with
    | none => simp [chromeInitialRead, hl]
    | some raw =>
        cases hp : parse raw with
        | ok v => simp [chromeInitialRead, hl, hp]
        | error e => simp [chromeInitialRead, hl, hp]
  · simp [chromeInitialRead, hraw, hv]
  · simp [chromeInitialRead, hraw, he]
  · simp [chromeInitialRead, h]

/-- Witness for C7, covering the spec's `"flag"` scenario: with raw entry
`yes` (invalid JSON) stored under `"flag"`, the initial read adopts the raw
string `"yes"` and sets the loaded flag; with an absent key the default `4`
is kept; with a parsable entry `2` the parsed number is adopted. -/
theorem c7_chrome_initial_read_witness :
    (chromeInitialRead jsonParse "flag" [("flag", "yes")] ⟨JsonValue.null, false⟩).value
      = JsonValue.str "yes"
    ∧ (chromeInitialRead jsonParse "flag" [("flag", "yes")] ⟨JsonValue.null, false⟩).hasLoaded
      = true
    ∧ (chromeInitialRead jsonParse "k" [] ⟨JsonValue.num 4, false⟩).value = JsonValue.num 4
    ∧ (chromeInitialRead jsonParse "k" [("k", "2")] ⟨JsonValue.num 4, false⟩).value
      = JsonValue.num 2 :=
  ⟨(c7_chrome_initial_read jsonParse "flag" [("flag", "yes")] ⟨JsonValue.null, false⟩).2.2.1
      "yes" ParseErr.synErr rfl rfl,
   (c7_chrome_initial_read jsonParse "flag" [("flag", "yes")] ⟨JsonValue.null, false⟩).1,
   (c7_chrome_initial_read jsonParse "k" [] ⟨JsonValue.num 4, false⟩).2.2.2 rfl,
   (c7_chrome_initial_read jsonParse "k" [("k", "2")] ⟨JsonValue.num 4, false⟩).2.1
      "2" (JsonValue.num 2) rfl rfl⟩

/-- C8: the async value fetch always resolves — to the parsed stored value
when the key is present in the selected area and parses, and to the default
value when the key is absent or the parse fails; no branch rejects (the model
is a total function into values, mirroring that every callback branch calls
`resolve`). -/
theorem c8_get_resolves (parse : ParseFun) (key : String) (defaultValue : JsonValue)
    (persist : Bool) (w : ChromeWorld) :
    (∀ raw v, lookupStore (chromeSelect w persist) key = some raw →
        parse raw = Except.ok v →
        getFromChromeStore parse key defaultValue persist w = v)
    ∧ (∀ raw e, lookupStore (chromeSelect w persist) key = some raw →
        parse raw = Except.error e →
        getFromChromeStore parse key defaultValue persist w = defaultValue)
    ∧ (lookupStore (chromeSelect w persist) key = none →
        getFromChromeStore parse key defaultValue persist w = defaultValue) := by
  refine ⟨fun raw v hraw hv => ?_, fun raw e hraw he => ?_, fun h => ?_⟩
  · simp [getFromChromeStore, hraw, hv]
  · simp [getFromChromeStore, hraw, he]
  · simp [getFromChromeStore, h]

/-- Witness for C8: present-and-parsable resolves the parsed value,
present-but-malformed resolves the default, absent resolves the default. -/
theorem c8_get_resolves_witness :
    getFromChromeStore jsonParse "k" (JsonValue.num 4) false ⟨[], [("k", "2")]⟩
      = JsonValue.num 2
    ∧ getFromChromeStore jsonParse "k" (JsonValue.num 4) false ⟨[], [("k", "yes")]⟩
      = JsonValue.num 4
    ∧ getFromChromeStore jsonParse "k" (JsonValue.num 4) false ⟨[("k", "2")], []⟩
      = JsonValue.num 4 :=
  ⟨(c8_get_resolves jsonParse "k" (JsonValue.num 4) false ⟨[], [("k", "2")]⟩).1
      "2" (JsonValue.num 2) rfl rfl,
   (c8_get_resolves jsonParse "k" (JsonValue.num 4) false ⟨[], [("k", "yes")]⟩).2.1
      "yes" ParseErr.synErr rfl rfl,
   (c8_get_resolves jsonParse "k" (JsonValue.num 4) false ⟨[("k", "2")], []⟩).2.2 rfl⟩

/-- C9, counterexample: the empty string is a stored entry whose parse fails,
yet on the *initial read* no parse error escapes: the initializer's
truthiness test skips the parse and returns the default `0` instead of the
error.  (The change-handler re-read does propagate the error there, per the
amended theorem.) -/
theorem c9_counterexample_empty_initial_read :
    jsonParse "" = Except.error ParseErr.synErr
    ∧ useSimpleStoreInit jsonParse "k" (JsonValue.num 0) [("k", "")]
        = Except.ok (JsonValue.num 0)
    ∧ useSimpleStoreInit jsonParse "k" (JsonValue.num 0) [("k", "")]
        ≠ Except.error ParseErr.synErr := by
  refine ⟨rfl, rfl, ?_⟩
  intro h
  rw [show useSimpleStoreInit jsonParse "k" (JsonValue.num 0) [("k", "")]
        = Except.ok (JsonValue.num 0) from rfl] at h
  exact Except.noConfusion h

/-- C9, amended: a parse error on the stored entry under the binding's key is
never caught by the browser binding — it propagates to the caller on the
change-handler re-read for every malformed entry, and on the initial read for
every malformed *non-empty* entry (an empty-string entry is skipped by the
initializer's truthiness test and yields the default instead). -/
theorem c9_parse_error_amended (parse : ParseFun) (key eventKey : String)
    (defaultValue value : JsonValue) (storage : Store) (s : String) (e : ParseErr)
    (hs : lookupStore storage key = some s) (hp : parse s = Except.error e) :
    (s ≠ "" → useSimpleStoreInit parse key defaultValue storage = Except.error e)
    ∧ handleStorageChange parse key eventKey storage value = Except.error e := by
  constructor
  · intro hne
    simp [useSimpleStoreInit, hs, hne, hp]
  · simp [handleStorageChange, hs, hp]

/-- Witness for C9's amended theorem: the malformed non-empty entry `yes`
under `"k"` makes both the initial read and the change-handler re-read end in
an uncaught syntax error. -/
theorem c9_parse_error_amended_witness :
    useSimpleStoreInit jsonParse "k" (JsonValue.num 0) [("k", "yes")]
      = Except.error ParseErr.synErr
    ∧ handleStorageChange jsonParse "k" "other" [("k", "yes")] (JsonValue.num 0)
      = Except.error ParseErr.synErr :=
  ⟨(c9_parse_error_amended jsonParse "k" "other" (JsonValue.num 0) (JsonValue.num 0)
      [("k", "yes")] "yes" ParseErr.synErr rfl rfl).1 (by decide),
   (c9_parse_error_amended jsonParse "k" "other" (JsonValue.num 0) (JsonValue.num 0)
      [("k", "yes")] "yes" ParseErr.synErr rfl rfl).2⟩

/-- C10: the three public functions disagree on the omitted-`persist`
default: `useSimpleStore` defaults to `persist = true` and so targets the
durable `localStorage` area, while `useChromeStore` and `getFromChromeStore`
default to `persist = false` and so target the session extension area. -/
theorem c10_default_persist_modes (bw : BrowserWorld) (cw : ChromeWorld) :
    useSimpleStoreDefaultPersist = true
    ∧ useChromeStoreDefaultPersist = false
    ∧ getFromChromeStoreDefaultPersist = false
    ∧ browserSelect bw useSimpleStoreDefaultPersist = bw.localStorage
    ∧ chromeSelect cw useChromeStoreDefaultPersist = cw.sessionArea
    ∧ chromeSelect cw getFromChromeStoreDefaultPersist = cw.sessionArea :=
  ⟨rfl, rfl, rfl, rfl, rfl, rfl⟩

end SimpleStoreSpec
